import Mathlib

/-!
Verification of the barycentric Lagrange basis / companion-pencil root solver
of polyrat (file polyrat/lagrange.py), against its natural-language
specification.

The development is a shallow embedding:

* Exact scalars.  The basis code (weights, Vandermonde-like evaluation) is
  dtype-generic numpy code; it is embedded over an arbitrary field K with
  decidable equality (instantiated at Q for concrete evaluation).
  A value that numpy would report as non-finite (inf or nan, both produced
  here only by a zero denominator) is modelled as `none : Option K`.

* Array shapes.  The vandermonde method's behaviour hinges on ndarray
  shapes (an hstack of 1-D arrays is 1-D, and an axis-1 reduction on it
  raises AxisError), so its embedding carries shapes explicitly: an array
  is a shape together with row-major data.

* lagrange_roots.  Its arithmetic (norms, balancing, angle, rotation) uses
  external numerical primitives (sqrt, angle, complex exponential), which
  the spec treats as a trusted external library.  The function is embedded
  parametrically over a structure `NumModel` providing those primitives,
  together with an explicit model of Python module-level name resolution:
  the module imports only numpy and PolynomialBasis, so evaluating the free
  names hessenberg, eigvals and warnings is a name-resolution event whose
  outcome is decided by the recorded module environment.
-/

namespace Polyrat

/-! ## Barycentric basis (class LagrangePolynomialBasis)

`baryWeights` transcribes the weight computation of
`LagrangePolynomialBasis.__init__`:

  self.weights = 1./np.array([
      np.prod(self.nodes[k] - self.nodes[0:k])
        * np.prod(self.nodes[k] - self.nodes[k+1:])
      for k in range(len(self.nodes))])

With pairwise-distinct nodes every denominator is nonzero, so the Lean
convention (0 : K)⁻¹ = 0 is never exercised by the theorems below. -/

def baryWeights {K : Type} [Field K] (nodes : List K) : List K :=
  (List.range nodes.length).map (fun k =>
    (((nodes.take k).map (fun x => nodes.getD k 0 - x)).prod *
     ((nodes.drop (k + 1)).map (fun x => nodes.getD k 0 - x)).prod)⁻¹)

theorem baryWeights_length {K : Type} [Field K] (nodes : List K) :
    (baryWeights nodes).length = nodes.length := by
  simp [baryWeights]

theorem baryWeights_get {K : Type} [Field K] (nodes : List K) (j : ℕ)
    (hj : j < (baryWeights nodes).length) :
    (baryWeights nodes).get ⟨j, hj⟩ =
      (((nodes.take j).map (fun x => nodes.getD j 0 - x)).prod *
       ((nodes.drop (j + 1)).map (fun x => nodes.getD j 0 - x)).prod)⁻¹ := by
  simp [baryWeights]

/-- C6: Weight computation.  Constructing a basis from N pairwise-distinct
nodes computes, for every index j, weight[j] equal to the reciprocal of the
product over all k distinct from j of (node[j] - node[k]).  The product over
all indices other than j is expressed via `List.eraseIdx`. -/
theorem C6_bary_weight_formula {K : Type} [Field K] (nodes : List K)
    (hdist : nodes.Pairwise (· ≠ ·)) (j : ℕ) (hj : j < nodes.length) :
    (baryWeights nodes).get ⟨j, (baryWeights_length nodes).symm ▸ hj⟩ =
      (((nodes.eraseIdx j).map (fun x => nodes.get ⟨j, hj⟩ - x)).prod)⁻¹ := by
  rw [baryWeights_get]
  rw [List.eraseIdx_eq_take_drop_succ, List.map_append, List.prod_append]
  rw [List.getD_eq_get nodes 0 hj]

/-- C6 witness: at nodes [0, 1, 3] over Q the middle weight is
1/((1-0)(1-3)) = -1/2. -/
theorem C6_bary_weight_formula_witness :
    ([(0 : ℚ), 1, 3].Pairwise (· ≠ ·)) ∧
      (baryWeights [(0 : ℚ), 1, 3]).get ⟨1, by decide⟩ =
        ((([(0 : ℚ), 1, 3].eraseIdx 1).map
          (fun x => [(0 : ℚ), 1, 3].get ⟨1, by decide⟩ - x)).prod)⁻¹ :=
  ⟨by decide, C6_bary_weight_formula [(0 : ℚ), 1, 3] (by decide) 1 (by decide)⟩

/-! ## Vandermonde-like evaluation (LagrangePolynomialBasis.vandermonde)
(claims C3, C4)

Source:

  def vandermonde(self, X):
      x = X.flatten()
      assert len(x) == len(X), "Input must be one dimensional"
      with np.errstate(divide = 'ignore', invalid = 'ignore'):
          V = np.hstack([w/(x - n) for n, w in zip(self.nodes, self.weights)])
          for row in np.argwhere(~np.all(np.isfinite(V), axis = 1)):
              V[row] = 0
              V[row, np.argmin(np.abs(x[row] - self.nodes)).flatten()] = 1.
      return V

The shapes matter here, so arrays are embedded with their shape: an
ndarray is a shape together with row-major data.  Each comprehension term
w/(x - n) is a ONE-dimensional array of length M (x is the flattened 1-D
point array and n, w are scalars), and np.hstack concatenates 1-D inputs
along axis 0, so V is a flat 1-D array of length N*M - the reshape of each
term into a column is missing from this copy of the code.  Consequently
np.all(np.isfinite(V), axis = 1) asks for axis 1 of a 1-D array and raises
AxisError on every call (np.errstate suppresses floating warnings only,
not exceptions); the row-replacement loop below it is dead code and the
function never returns.  The embedding keeps the loop entry as an explicit
outcome (`enterFixLoop`, carrying V and the axis-1 mask) and the theorems
prove it is never reached.

Scalar entries keep their exact value: w/(x - n) is `none` (non-finite)
when x coincides with the node, `some (w/(x - n))` otherwise. -/

structure NpArray (α : Type) where
  shape : List ℕ
  data : List α

def pdiv {K : Type} [Field K] [DecidableEq K] (w d : K) : Option K :=
  if d = 0 then none else some (w / d)

/-- One comprehension term w/(x - n): a 1-D array of length len(x). -/
def wOverXminusN {K : Type} [Field K] [DecidableEq K]
    (w : K) (x : List (Option K)) (n : K) : NpArray (Option K) :=
  ⟨[x.length], x.map (fun xv =>
    match xv with
    | some v => pdiv w (v - n)
    | none => none)⟩

/-- np.hstack on 1-D inputs: concatenation along axis 0 (numpy concatenates
1-D arrays along the first axis; every array passed here is 1-D by
construction).  np.hstack of an empty list raises ValueError. -/
def npHstack1d {α : Type} (cols : List (NpArray α)) : Except String (NpArray α) :=
  if cols.isEmpty then .error ("ValueError")
  else .ok ⟨[(cols.map (fun c => c.data.length)).sum],
            (cols.map (fun c => c.data)).flatten⟩

/-- np.isfinite, elementwise; shape preserved. -/
def npIsFinite {K : Type} (V : NpArray (Option K)) : NpArray Bool :=
  ⟨V.shape, V.data.map Option.isSome⟩

/-- np.all(..., axis = 1): for an array of dimension at least two, reduce
along axis 1 (row-major indexing); for dimension zero or one, axis 1 is out
of bounds and numpy raises AxisError. -/
def npAllAxis1 (B : NpArray Bool) : Except String (NpArray Bool) :=
  match B.shape with
  | m :: nc :: rest =>
      .ok ⟨m :: rest,
        (List.range (m * rest.prod)).map (fun o =>
          ((List.range nc).map (fun j =>
            B.data.getD ((o / rest.prod) * (nc * rest.prod) + j * rest.prod
              + o % rest.prod) true)).all id)⟩
  | _ => .error ("AxisError")

/-- V = np.hstack([w/(x - n) for n, w in zip(self.nodes, self.weights)]),
with the basis weights computed from the nodes as in __init__. -/
def vandermondeV {K : Type} [Field K] [DecidableEq K]
    (nodes : List K) (x : List (Option K)) : Except String (NpArray (Option K)) :=
  npHstack1d (List.zipWith (fun n w => wOverXminusN w x n) nodes (baryWeights nodes))

/-- Outcome of a vandermonde call: an exception, or entry into the
row-replacement for-loop with the built V and the axis-1 finiteness mask
(the loop itself, and the final return, lie beyond this point). -/
inductive NpVOutcome (K : Type) where
  | raises (err : String)
  | enterFixLoop (V : NpArray (Option K)) (mask : NpArray Bool)

def NpVOutcome.isRaises {K : Type} : NpVOutcome K → Bool
  | .raises _ => true
  | .enterFixLoop _ _ => false

def NpVOutcome.errMsg {K : Type} : NpVOutcome K → Option String
  | .raises e => some e
  | .enterFixLoop _ _ => none

def exceptShape {α : Type} : Except String (NpArray α) → Option (List ℕ)
  | .ok V => some V.shape
  | .error _ => none

/-- LagrangePolynomialBasis.vandermonde: flatten, the length assert
(len() of a 0-d array raises TypeError), the hstack, then the axis-1
finiteness reduction guarding the row-replacement loop. -/
def npVandermonde {K : Type} [Field K] [DecidableEq K]
    (nodes : List K) (X : NpArray (Option K)) : NpVOutcome K :=
  match X.shape with
  | [] => .raises ("TypeError")
  | d :: _ =>
    if X.data.length = d then
      match vandermondeV nodes X.data with
      | .error e => .raises e
      | .ok V =>
        match npAllAxis1 (npIsFinite V) with
        | .error e => .raises e
        | .ok mask => .enterFixLoop V mask
    else .raises ("AssertionError: Input must be one dimensional")

theorem vandermondeV_ok_shape {K : Type} [Field K] [DecidableEq K]
    (nodes : List K) (x : List (Option K)) (V : NpArray (Option K))
    (h : vandermondeV nodes x = Except.ok V) : ∃ s, V.shape = [s] := by
  unfold vandermondeV npHstack1d at h
  split at h
  · exact absurd h (by simp)
  · injection h with h2
    exact ⟨_, (congrArg NpArray.shape h2).symm⟩

theorem npAllAxis1_dim1 (B : NpArray Bool) (s : ℕ) (h : B.shape = [s]) :
    npAllAxis1 B = Except.error ("AxisError") := by
  obtain ⟨bs, bd⟩ := B
  simp only at h
  subst h
  rfl

/-- C3: code_bug evidence.  For the basis with nodes [0, 1], evaluating at
the single point X[0] = 0 does not return the one-hot row [1, 0]: the two
comprehension terms are 1-D arrays of length 1, their hstack V is the flat
shape-[2] array (first conjunct), and the axis-1 finiteness reduction on it
raises AxisError before any row replacement or return (second conjunct). -/
theorem C3_eval_at_node_raises :
    exceptShape (vandermondeV [(0 : ℚ), 1] [some 0]) = some [2] ∧
      (npVandermonde [(0 : ℚ), 1] ⟨[1], [some 0]⟩).errMsg = some ("AxisError") := by
  decide

/-- C4: code_bug evidence.  vandermonde never returns any M x N matrix,
finite rows or not: for every node list and every input array the call
raises before the row-replacement loop (TypeError for a 0-d input,
AssertionError when the outer length differs from the element count,
ValueError for an empty basis, and otherwise AxisError, because the
hstack-built V is one-dimensional). -/
theorem C4_vandermonde_never_returns {K : Type} [Field K] [DecidableEq K]
    (nodes : List K) (X : NpArray (Option K)) :
    (npVandermonde nodes X).isRaises = true := by
  obtain ⟨sh, da⟩ := X
  cases sh with
  | nil => rfl
  | cons d ds =>
    have hstep : npVandermonde nodes ⟨d :: ds, da⟩ =
        (if da.length = d then
          match vandermondeV nodes da with
          | Except.error e => NpVOutcome.raises e
          | Except.ok V =>
            match npAllAxis1 (npIsFinite V) with
            | Except.error e => NpVOutcome.raises e
            | Except.ok mask => NpVOutcome.enterFixLoop V mask
        else NpVOutcome.raises ("AssertionError: Input must be one dimensional")) :=
      rfl
    rw [hstep]
    split
    · cases hV : vandermondeV nodes da with
      | error e => simp [hV, NpVOutcome.isRaises]
      | ok V =>
        obtain ⟨s, hs⟩ := vandermondeV_ok_shape nodes da V hV
        have hred : npAllAxis1 (npIsFinite V) = Except.error ("AxisError") :=
          npAllAxis1_dim1 (npIsFinite V) s hs
        simp [hV, hred, NpVOutcome.isRaises]
    · rfl

/-! ## Input-shape check of LagrangePolynomialBasis.__init__ (claim C7)

Source:

  self.nodes = np.array(nodes).flatten()
  assert len(nodes) == len(self.nodes), "Input must be one-dimensional"

The input is modelled as a (rectangular) nested list of depth one or two;
np.array(...).flatten() collects the scalar elements in order, and Python
len() of the input is the length of its outer list.  The assert passes iff
the outer length equals the flattened length.  (Deeper nestings behave the
same way: only outer length versus total element count is compared.) -/

inductive PyNested (K : Type) where
  | one (xs : List K)
  | two (xss : List (List K))

def pyNestedFlat {K : Type} : PyNested K → List K
  | .one xs => xs
  | .two xss => xss.join

def pyNestedOuterLen {K : Type} : PyNested K → ℕ
  | .one xs => xs.length
  | .two xss => xss.length

def pyNestedIs1D {K : Type} : PyNested K → Bool
  | .one _ => true
  | .two _ => false

/-- LagrangePolynomialBasis.__init__, restricted to its input validation:
returns the flattened node list, or the DimensionError of the spec (the
source signals it with an assert) when len(nodes) differs from
len(np.array(nodes).flatten()). -/
def lagrangeBasisMake {K : Type} (a : PyNested K) : Except String (List K) :=
  if pyNestedOuterLen a = (pyNestedFlat a).length then .ok (pyNestedFlat a)
  else .error ("DimensionError")

def lagrangeBasisAccepts {K : Type} (a : PyNested K) : Bool :=
  match lagrangeBasisMake a with
  | .ok _ => true
  | .error _ => false

/-- C7 counterexample: the column vector [[0], [1]] (shape (2, 1)) is not
one-dimensional, yet basis construction accepts it: its outer length (2)
equals its flattened length (2), so no DimensionError is raised. -/
theorem C7_counterexample :
    pyNestedIs1D (PyNested.two [[(0 : ℚ)], [1]]) = false ∧
      lagrangeBasisAccepts (PyNested.two [[(0 : ℚ)], [1]]) = true := by
  decide

theorem pyNested_col_flat {K : Type} (xs : List K) :
    (xs.map (fun x => [x])).join = xs := by
  induction xs with
  | nil => rfl
  | cons a l ih => simp [ih]

/-- C7 amended: construction succeeds for every one-dimensional input; a
non-1D input fails with DimensionError exactly when its outer length
differs from its total element count, so column vectors of shape (M, 1)
are accepted (contrary to the claim) while e.g. any 2 x 2 input is
rejected. -/
theorem C7_amended_shape_check :
    (∀ (K : Type) (xs : List K),
        lagrangeBasisAccepts (PyNested.one xs) = true) ∧
    (∀ (K : Type) (xs : List K),
        lagrangeBasisAccepts (PyNested.two (xs.map (fun x => [x]))) = true) ∧
    (∀ (a b c d : ℚ),
        lagrangeBasisAccepts (PyNested.two [[a, b], [c, d]]) = false) := by
  refine ⟨?_, ?_, ?_⟩
  · intro K xs
    simp [lagrangeBasisAccepts, lagrangeBasisMake, pyNestedOuterLen, pyNestedFlat]
  · intro K xs
    simp [lagrangeBasisAccepts, lagrangeBasisMake, pyNestedOuterLen, pyNestedFlat,
      pyNested_col_flat]
  · intro a b c d
    simp [lagrangeBasisAccepts, lagrangeBasisMake, pyNestedOuterLen, pyNestedFlat]

/-! ## Givens rotation of the deflation path (claim C9)

Source (lagrange_roots, deflation branch):

  G5 = np.eye(n, dtype=complex)
  a = H1[0,0]
  b = H1[1,0]
  c = a / np.sqrt(a**2 + b**2)
  s = b / np.sqrt(a**2 + b**2)
  G5[0:2,0:2] = [[c.conjugate(), s.conjugate()],[-s,c]]

The square root is an external primitive; it enters only through a scalar r
with r * r = a^2 + b^2, as the claim states. -/

def givensG5 {K : Type} [Field K] [StarRing K] (n : ℕ) (a b r : K) :
    Matrix (Fin n) (Fin n) K :=
  Matrix.of fun i k =>
    if i.val = 0 ∧ k.val = 0 then star (a / r)
    else if i.val = 0 ∧ k.val = 1 then star (b / r)
    else if i.val = 1 ∧ k.val = 0 then -(b / r)
    else if i.val = 1 ∧ k.val = 1 then a / r
    else if i = k then 1 else 0

/-- C9: Givens annihilation.  With a = H[0,0], b = H[1,0] and r a nonzero
square root of a^2 + b^2, left-multiplying H by the rotation
[[conj(a/r), conj(b/r)], [-b/r, a/r]] (embedded in the identity on the
remaining rows) makes the (1,0) entry exactly zero in exact arithmetic. -/
theorem C9_givens_annihilates {K : Type} [Field K] [StarRing K] (n : ℕ)
    (hn : 2 ≤ n) (H : Matrix (Fin n) (Fin n) K) (r : K)
    (hr : r * r =
      H ⟨0, by omega⟩ ⟨0, by omega⟩ * H ⟨0, by omega⟩ ⟨0, by omega⟩ +
      H ⟨1, by omega⟩ ⟨0, by omega⟩ * H ⟨1, by omega⟩ ⟨0, by omega⟩)
    (hr0 : r ≠ 0) :
    (givensG5 n (H ⟨0, by omega⟩ ⟨0, by omega⟩) (H ⟨1, by omega⟩ ⟨0, by omega⟩) r
        * H) ⟨1, by omega⟩ ⟨0, by omega⟩ = 0 := by
  have h0 : 0 < n := by omega
  have h1 : 1 < n := by omega
  rw [Matrix.mul_apply]
  have hzero : ∀ x ∈ (Finset.univ : Finset (Fin n)),
      x ∉ ({⟨0, h0⟩, ⟨1, h1⟩} : Finset (Fin n)) →
      givensG5 n (H ⟨0, h0⟩ ⟨0, h0⟩) (H ⟨1, h1⟩ ⟨0, h0⟩) r ⟨1, h1⟩ x *
        H x ⟨0, h0⟩ = 0 := by
    intro x _ hx
    have hx0 : x.val ≠ 0 := by
      intro h
      exact hx (by simp [Finset.mem_insert, Fin.ext_iff, h])
    have hx1 : x.val ≠ 1 := by
      intro h
      exact hx (by simp [Finset.mem_insert, Finset.mem_singleton, Fin.ext_iff, h])
    have : givensG5 n (H ⟨0, h0⟩ ⟨0, h0⟩) (H ⟨1, h1⟩ ⟨0, h0⟩) r ⟨1, h1⟩ x = 0 := by
      simp only [givensG5, Matrix.of_apply]
      rw [if_neg (by simp), if_neg (by simp), if_neg (by simp [hx0]),
        if_neg (by simp [hx1]), if_neg (by simp [Fin.ext_iff]; omega)]
    rw [this, zero_mul]
  rw [← Finset.sum_subset (Finset.subset_univ ({⟨0, h0⟩, ⟨1, h1⟩} : Finset (Fin n)))
    (fun x hx hnx => hzero x hx hnx)]
  rw [Finset.sum_pair (by simp [Fin.ext_iff])]
  simp only [givensG5, Matrix.of_apply]
  rw [if_neg (by simp), if_neg (by simp), if_pos (by simp)]
  rw [if_neg (by simp), if_neg (by simp), if_neg (by simp), if_pos (by simp)]
  field_simp
  ring

/-- C9 witness: H = [[3, 5], [4, 6]] over Q, r = 5 (5 * 5 = 3 * 3 + 4 * 4). -/
theorem C9_givens_annihilates_witness :
    ((2 : ℕ) ≤ 2 ∧ (5 : ℚ) * 5 = 3 * 3 + 4 * 4 ∧ (5 : ℚ) ≠ 0) ∧
      ((givensG5 2 3 4 5 * !![(3 : ℚ), 5; 4, 6] :
          Matrix (Fin 2) (Fin 2) ℚ) ⟨1, by omega⟩ ⟨0, by omega⟩ = 0) :=
  ⟨⟨le_refl 2, by norm_num, by norm_num⟩,
    C9_givens_annihilates 2 (le_refl 2) !![(3 : ℚ), 5; 4, 6] 5 (by norm_num) (by norm_num)⟩

/-! ## lagrange_roots (claims C1, C2, C5, C8, C10)

The module header of polyrat/lagrange.py consists of the two statements
"import numpy as np" and "from .basis import PolynomialBasis",
so the module globals bind only np, PolynomialBasis and the two names
defined in the module itself.  The deflation branch evaluates the free
names hessenberg and eigvals, the fallback branch warnings and eigvals;
none of them is bound, so evaluating one raises NameError.  The embedding
makes name resolution explicit: reaching a call on a name the environment
resolves yields `callsRoutine`, reaching one it does not resolve yields
`nameError`, and a failed assert yields `assertError`.

The numeric pipeline before that point (norms, balancing, phase angle,
rotation) runs over an abstract model `NumModel` of numpy scalar values;
the external primitives (sqrt, abs, angle, exp(-i t), comparisons, the
finiteness test) are fields of the model, as the spec treats them as a
trusted external library.  Non-finite values are whatever the model maps
to `isfinite = false`. -/

inductive PyOutcome where
  | assertError (msg : String)
  | nameError (nm : String)
  | callsRoutine (nm : String)
deriving DecidableEq

def PyOutcome.isFailure : PyOutcome → Bool
  | .assertError _ => true
  | .nameError _ => true
  | .callsRoutine _ => false

def lagrangeModuleGlobals : List String :=
  ["np", "PolynomialBasis", "lagrange_roots", "LagrangePolynomialBasis"]

def pyBuiltinNames : List String :=
  ["len", "zip", "range", "print", "complex", "AssertionError", "RuntimeWarning"]

def pyResolves (nm : String) : Bool :=
  lagrangeModuleGlobals.contains nm || pyBuiltinNames.contains nm

theorem pyResolves_hessenberg : pyResolves ("hessenberg") = false := by decide

theorem pyResolves_eigvals : pyResolves ("eigvals") = false := by decide

theorem pyResolves_warnings : pyResolves ("warnings") = false := by decide

structure NumModel (V : Type) where
  zero : V
  one : V
  add : V → V → V
  mul : V → V → V
  div : V → V → V
  sqrt : V → V
  abs : V → V
  angle : V → V
  expNegI : V → V
  im : V → V
  isfinite : V → Bool
  lt : V → V → Bool
  tol10 : V

def sumV {V : Type} (M : NumModel V) (l : List V) : V :=
  l.foldr M.add M.zero

/-- np.linalg.norm: sqrt of the sum of squared moduli. -/
def norm2V {V : Type} (M : NumModel V) (l : List V) : V :=
  M.sqrt (sumV M (l.map (fun x => M.mul (M.abs x) (M.abs x))))

/-- v / np.linalg.norm(v), elementwise. -/
def normalizeV {V : Type} (M : NumModel V) (l : List V) : List V :=
  l.map (fun x => M.div x (norm2V M l))

/-- Balancing scale [LC14, eq. 29]:
s = [1.] + [sqrt(abs(wj/aj)) if abs(aj) > 0 else 1 for wj, aj in
zip(weights, coef)] (normalized weights and coefficients). -/
def lagS {V : Type} (M : NumModel V) (weightsN coefN : List V) (j : ℕ) : V :=
  if j = 0 then M.one
  else
    if M.lt M.zero (M.abs (coefN.getD (j - 1) M.zero)) then
      M.sqrt (M.abs (M.div (weightsN.getD (j - 1) M.zero)
        (coefN.getD (j - 1) M.zero)))
    else M.one

/-- The pencil RHS before balancing: C0 = zeros(n+1); C0[1:,1:] =
diag(nodes); C0[0,1:] = normalized coef; C0[1:,0] = normalized weights. -/
def lagC0 {V : Type} (M : NumModel V) (nodes coefN weightsN : List V)
    (i j : ℕ) : V :=
  if i = 0 then (if j = 0 then M.zero else coefN.getD (j - 1) M.zero)
  else if j = 0 then weightsN.getD (i - 1) M.zero
  else if i = j then nodes.getD (i - 1) M.zero
  else M.zero

/-- After balancing: C0 = diag(1/s) @ C0 @ diag(s), entrywise
(1/s_i) * C0[i,j] * s_j. -/
def lagC0bal {V : Type} (M : NumModel V) (nodes weights coef : List V)
    (i j : ℕ) : V :=
  M.mul
    (M.mul (M.div M.one (lagS M (normalizeV M weights) (normalizeV M coef) i))
      (lagC0 M nodes (normalizeV M coef) (normalizeV M weights) i j))
    (lagS M (normalizeV M weights) (normalizeV M coef) j)

/-- angle = np.angle(C0[1,0]) after balancing. -/
def lagAngle {V : Type} (M : NumModel V) (nodes weights coef : List V) : V :=
  M.angle (lagC0bal M nodes weights coef 1 0)

/-- C0[1,0] after the phase rotation C0[1:,0] *= exp(-1j*angle), applied
only when the angle is finite. -/
def lagEntry10Rot {V : Type} (M : NumModel V) (nodes weights coef : List V) : V :=
  if M.isfinite (lagAngle M nodes weights coef) then
    M.mul (lagC0bal M nodes weights coef 1 0)
      (M.expNegI (lagAngle M nodes weights coef))
  else lagC0bal M nodes weights coef 1 0

/-- lagrange_roots(nodes, weights, coef, deflation).  Control flow of the
source, in order: the length assert; pencil construction, normalization,
balancing (pure); the phase angle of C0[1,0] with the isfinite test that
disables deflation when non-finite; on the deflation branch the assert
abs(C0[1,0].imag) < 1e-10 followed by the Householder computation (whose
values flow only into the hessenberg call) and the name lookup of
hessenberg; on the fallback branch the name lookup of warnings and then of
eigvals.  A lookup the module environment resolves proceeds to the external
routine; an unresolved one raises NameError at that point. -/
def lagrangeRootsM {V : Type} (M : NumModel V) (nodes weights coef : List V)
    (deflation : Bool) : PyOutcome :=
  if nodes.length = weights.length ∧ nodes.length = coef.length then
    if (if M.isfinite (lagAngle M nodes weights coef) then deflation else false) then
      if M.lt (M.abs (M.im (lagEntry10Rot M nodes weights coef))) M.tol10 then
        if pyResolves ("hessenberg") then PyOutcome.callsRoutine ("hessenberg")
        else PyOutcome.nameError ("hessenberg")
      else PyOutcome.assertError ("C0[1,0] imaginary part too large")
    else
      if pyResolves ("warnings") then
        if pyResolves ("eigvals") then PyOutcome.callsRoutine ("eigvals")
        else PyOutcome.nameError ("eigvals")
      else PyOutcome.nameError ("warnings")
  else PyOutcome.assertError ("Dimensions of nodes, weights, and coef should be the same")

/-- C1: no invocation of lagrange_roots ever produces a root set.  Whatever
the numeric model, input vectors and deflation flag, the call ends in an
assertion failure or an unresolved-name (NameError) failure before any
eigenvalue routine can run, so the claimed root round-trip (returning the
target roots within 1e-8) is unsatisfiable on this code. -/
theorem C1_no_roots_ever_returned {V : Type} (M : NumModel V)
    (nodes weights coef : List V) (deflation : Bool) :
    (lagrangeRootsM M nodes weights coef deflation).isFailure = true := by
  unfold lagrangeRootsM
  rw [pyResolves_hessenberg, pyResolves_warnings, pyResolves_eigvals]
  repeat' split
  all_goals simp_all [PyOutcome.isFailure]

/-- C2: on the fallback (non-deflated) path the call never reaches the
eigenvalue computation, the finite-eigenvalue filter, or the invariant
check: it fails by NameError on the unbound name warnings as soon as the
fallback block is entered. -/
theorem C2_fallback_nameError {V : Type} (M : NumModel V)
    (nodes weights coef : List V)
    (h1 : nodes.length = weights.length) (h2 : nodes.length = coef.length) :
    lagrangeRootsM M nodes weights coef false = PyOutcome.nameError ("warnings") := by
  unfold lagrangeRootsM
  rw [if_pos ⟨h1, h2⟩, ite_self]
  rw [if_neg (by simp)]
  rw [if_neg (by rw [pyResolves_warnings]; simp)]

/-- C8 (amended): when the phase angle of the balanced C0[1,0] is
non-finite, deflation is disabled for the call even when requested, and
control proceeds into the fallback branch (where, in this code, it then
fails on the unbound name warnings) instead of aborting at the
phase-normalization step. -/
theorem C8_nonfinite_angle_forces_fallback {V : Type} (M : NumModel V)
    (nodes weights coef : List V)
    (h1 : nodes.length = weights.length) (h2 : nodes.length = coef.length)
    (ha : M.isfinite (lagAngle M nodes weights coef) = false) :
    lagrangeRootsM M nodes weights coef true = PyOutcome.nameError ("warnings") := by
  unfold lagrangeRootsM
  rw [if_pos ⟨h1, h2⟩, ha, pyResolves_warnings]
  simp

/-- C10: the names hessenberg, eigvals and warnings are unbound in the
module environment (whose imports are only numpy and PolynomialBasis), and
consequently every invocation of lagrange_roots with well-formed lengths
that passes the pre-stage asserts raises a NameError at its
eigenvalue-computation stage - hessenberg on the deflation path, warnings
at the entry of the fallback path - instead of returning roots. -/
theorem C10_eigen_stage_names_unbound :
    pyResolves ("hessenberg") = false ∧ pyResolves ("eigvals") = false ∧
    pyResolves ("warnings") = false ∧
    ∀ (V : Type) (M : NumModel V) (nodes weights coef : List V) (d : Bool),
      nodes.length = weights.length → nodes.length = coef.length →
      (lagrangeRootsM M nodes weights coef d = PyOutcome.nameError ("hessenberg") ∨
       lagrangeRootsM M nodes weights coef d = PyOutcome.nameError ("warnings") ∨
       lagrangeRootsM M nodes weights coef d =
         PyOutcome.assertError ("C0[1,0] imaginary part too large")) := by
  refine ⟨pyResolves_hessenberg, pyResolves_eigvals, pyResolves_warnings, ?_⟩
  intro V M nodes weights coef d h1 h2
  unfold lagrangeRootsM
  rw [if_pos ⟨h1, h2⟩, pyResolves_hessenberg, pyResolves_warnings, pyResolves_eigvals]
  repeat' split
  all_goals simp_all

/-! ## A concrete executable model: complex fractions with a nan value

Scalars are pairs of unreduced integer fractions (real and imaginary part);
`none` is a non-finite value (inf and nan are conflated; in the pipeline
above a non-finite value can arise only from a zero denominator or
propagate, and no later operation ever maps a non-finite value back to a
finite one along the entries the theorems inspect).  Fractions are kept
unreduced, with positive denominators, so that every operation evaluates
inside the kernel (rational normalization via gcd does not).  The square
root is exact on fractions whose numerator and denominator are perfect
squares - the only points at which the concrete theorems below consume its
value - and floor-valued elsewhere.  np.angle is finite on every finite
input; its exact value (0) is represented only on the nonnegative reals,
the sole points at which the theorems below consume it, whence
exp(-1j*angle) is represented by its exact value 1 at angle 0. -/

structure Frac where
  n : ℤ
  d : ℤ
deriving DecidableEq

def fAdd (a b : Frac) : Frac := ⟨a.n * b.d + b.n * a.d, a.d * b.d⟩

def fSub (a b : Frac) : Frac := ⟨a.n * b.d - b.n * a.d, a.d * b.d⟩

def fMul (a b : Frac) : Frac := ⟨a.n * b.n, a.d * b.d⟩

def fDiv (a b : Frac) : Frac :=
  if b.n < 0 then ⟨-(a.n * b.d), a.d * (-b.n)⟩ else ⟨a.n * b.d, a.d * b.n⟩

def fLt (a b : Frac) : Bool := decide (a.n * b.d < b.n * a.d)

/-- Floor square root on Nat by linear search (structural, so that concrete
theorems evaluate inside the kernel; all arguments reached below are tiny). -/
def natFloorSqrt (nn : ℕ) : ℕ :=
  ((List.range (nn + 1)).filter (fun k => decide (k * k ≤ nn))).length - 1

def fSqrt (a : Frac) : Frac :=
  ⟨(natFloorSqrt a.n.toNat : ℤ), (natFloorSqrt a.d.toNat : ℤ)⟩

abbrev CV : Type := Option (Frac × Frac)

def cAdd : CV → CV → CV
  | some a, some b => some (fAdd a.1 b.1, fAdd a.2 b.2)
  | _, _ => none

def cMul : CV → CV → CV
  | some a, some b =>
      some (fSub (fMul a.1 b.1) (fMul a.2 b.2),
            fAdd (fMul a.1 b.2) (fMul a.2 b.1))
  | _, _ => none

def cDiv : CV → CV → CV
  | some a, some b =>
      if (fAdd (fMul b.1 b.1) (fMul b.2 b.2)).n = 0 then none
      else
        some (fDiv (fAdd (fMul a.1 b.1) (fMul a.2 b.2))
                (fAdd (fMul b.1 b.1) (fMul b.2 b.2)),
              fDiv (fSub (fMul a.2 b.1) (fMul a.1 b.2))
                (fAdd (fMul b.1 b.1) (fMul b.2 b.2)))
  | _, _ => none

def cSqrt : CV → CV
  | some a => some (fSqrt a.1, ⟨0, 1⟩)
  | none => none

def cAbs : CV → CV
  | some a => some (fSqrt (fAdd (fMul a.1 a.1) (fMul a.2 a.2)), ⟨0, 1⟩)
  | none => none

def cAngle : CV → CV
  | some _ => some (⟨0, 1⟩, ⟨0, 1⟩)
  | none => none

def cExpNegI : CV → CV
  | some _ => some (⟨1, 1⟩, ⟨0, 1⟩)
  | none => none

def cIm : CV → CV
  | some a => some (a.2, ⟨0, 1⟩)
  | none => none

/-- Comparisons in the source compare real quantities; a comparison
involving a non-finite value is false, as for nan in numpy. -/
def cLt : CV → CV → Bool
  | some a, some b => fLt a.1 b.1
  | _, _ => false

def CM : NumModel CV :=
  { zero := some (⟨0, 1⟩, ⟨0, 1⟩)
    one := some (⟨1, 1⟩, ⟨0, 1⟩)
    add := cAdd
    mul := cMul
    div := cDiv
    sqrt := cSqrt
    abs := cAbs
    angle := cAngle
    expNegI := cExpNegI
    im := cIm
    isfinite := Option.isSome
    lt := cLt
    tol10 := some (⟨1, 10000000000⟩, ⟨0, 1⟩) }

/-- A finite value re + im * i with both parts integral. -/
def fz (re im : ℤ) : CV := some (⟨re, 1⟩, ⟨im, 1⟩)

/-- The entry is exactly the complex number zero (numerators of both
components vanish); false on non-finite values. -/
def cIsZero : CV → Bool
  | some a => decide (a.1.n = 0) && decide (a.2.n = 0)
  | none => false

/-- C5: at the single-node basis (nodes [0], weights [1], coef [1]) the
call does not return the empty root set: the deflation path fails with
NameError on hessenberg and the fallback path with NameError on
warnings. -/
theorem C5_single_node_raises :
    lagrangeRootsM CM [fz 0 0] [fz 1 0] [fz 1 0] true =
        PyOutcome.nameError ("hessenberg") ∧
      lagrangeRootsM CM [fz 0 0] [fz 1 0] [fz 1 0] false =
        PyOutcome.nameError ("warnings") := by
  decide

/-- C8 counterexample: with nodes [1, 2], weights [0, 1], coef [0, 1] the
balanced pencil entry C0[1,0] is exactly zero (the first normalized weight
is 0 and the balancing scale for index 1 stays 1 because |coef[0]| = 0),
yet np.angle(0) = 0 is finite, so deflation is NOT disabled: the call
proceeds on the deflation path (observable as the NameError on hessenberg,
not the fallback NameError on warnings), refuting the claim that a zero
entry disables deflation. -/
theorem C8_zero_entry_keeps_deflation :
    cIsZero (lagC0bal CM [fz 1 0, fz 2 0] [fz 0 0, fz 1 0]
        [fz 0 0, fz 1 0] 1 0) = true ∧
      lagrangeRootsM CM [fz 1 0, fz 2 0] [fz 0 0, fz 1 0]
        [fz 0 0, fz 1 0] true = PyOutcome.nameError ("hessenberg") := by
  decide

/-- C2 witness at nodes [0, 1], weights [1, 1], coef [1, 1]. -/
theorem C2_fallback_nameError_witness :
    (([fz 0 0, fz 1 0] : List CV).length = ([fz 1 0, fz 1 0] : List CV).length ∧
      ([fz 0 0, fz 1 0] : List CV).length = ([fz 1 0, fz 1 0] : List CV).length) ∧
      lagrangeRootsM CM [fz 0 0, fz 1 0] [fz 1 0, fz 1 0]
          [fz 1 0, fz 1 0] false = PyOutcome.nameError ("warnings") :=
  ⟨⟨rfl, rfl⟩,
    C2_fallback_nameError CM [fz 0 0, fz 1 0] [fz 1 0, fz 1 0]
      [fz 1 0, fz 1 0] rfl rfl⟩

/-- C8 witness: weights [0, 1] with coef [1, 0] make the balancing scale
s[1] = sqrt(|0/1|) = 0, so the balanced C0[1,0] is 0/0 = nan, the angle
is non-finite, and the call with use_deflation = true lands in the fallback
branch. -/
theorem C8_nonfinite_angle_forces_fallback_witness :
    (CM.isfinite (lagAngle CM [fz 1 0, fz 2 0] [fz 0 0, fz 1 0]
        [fz 1 0, fz 0 0]) = false) ∧
      lagrangeRootsM CM [fz 1 0, fz 2 0] [fz 0 0, fz 1 0]
          [fz 1 0, fz 0 0] true = PyOutcome.nameError ("warnings") :=
  ⟨by decide,
    C8_nonfinite_angle_forces_fallback CM [fz 1 0, fz 2 0]
      [fz 0 0, fz 1 0] [fz 1 0, fz 0 0] rfl rfl (by decide)⟩

/-- C10 witness: at a concrete single-node input the deflation-path call
resolves to the NameError trichotomy. -/
theorem C10_eigen_stage_names_unbound_witness :
    pyResolves ("hessenberg") = false ∧
      (lagrangeRootsM CM [fz 0 0] [fz 2 0] [fz 3 0] true =
          PyOutcome.nameError ("hessenberg") ∨
        lagrangeRootsM CM [fz 0 0] [fz 2 0] [fz 3 0] true =
          PyOutcome.nameError ("warnings") ∨
        lagrangeRootsM CM [fz 0 0] [fz 2 0] [fz 3 0] true =
          PyOutcome.assertError ("C0[1,0] imaginary part too large")) :=
  ⟨C10_eigen_stage_names_unbound.1,
    C10_eigen_stage_names_unbound.2.2.2 CV CM [fz 0 0] [fz 2 0]
      [fz 3 0] true rfl rfl⟩

end Polyrat
